import Mathlib

/-
Verification of the motion-detection and cooldown-gated scare-trigger
pipeline of halloween_scare.py (classes HalloweenScareSystem and
HalloweenGUI).  The OpenCV and pygame primitives (background subtraction,
contour extraction, audio playback, GUI widgets) are external
collaborators; they are embedded as opaque handles and explicit inputs,
while every decision the Python source itself makes (area filtering, the
cooldown gate, pause handling, the audio fallback, overlay composition,
statistics updates) is translated faithfully.  Wall-clock reads
(time.time) become explicit `now` arguments; `random.choice` becomes an
explicit index argument.
-/

set_option maxHeartbeats 1000000

namespace Halloween

/-- Opaque handle standing for a captured video frame (a pixel buffer). -/
abbrev Frame := ℕ

/-- Opaque handle standing for a binary motion mask (the thresholded and
morphologically opened foreground map). -/
abbrev Mask := ℕ

/-- Wall-clock seconds, as returned by time.time(). -/
abbrev Time := ℚ

/-- One external contour found by cv2.findContours on the motion mask:
its area as computed by cv2.contourArea and its bounding box as computed
by cv2.boundingRect. -/
structure Contour where
  area : ℚ
  x : ℤ
  y : ℤ
  w : ℤ
  h : ℤ
deriving DecidableEq

/-- One step of the contour loop in detect_motion (source lines 134-139):
a contour is kept exactly when its area is strictly greater than
min_motion_area; kept contours are appended in iteration order, their
areas accumulate into total_motion_area, and motion_detected is set. -/
def blobStep (minArea : ℚ) (acc : Bool × List Contour × ℚ) (c : Contour) :
    Bool × List Contour × ℚ :=
  if minArea < c.area then (true, acc.2.1 ++ [c], acc.2.2 + c.area)
  else acc

/-- The whole contour-filtering loop of detect_motion (source lines
130-141), starting from motion_detected = False, an empty contour list
and zero total area. -/
def filterContours (minArea : ℚ) (cs : List Contour) :
    Bool × List Contour × ℚ :=
  cs.foldl (blobStep minArea) (false, [], 0)

/-- Area predicate used by the loop: strictly greater than the threshold. -/
def qualifies (minArea : ℚ) (c : Contour) : Bool :=
  decide (minArea < c.area)

lemma blobStep_foldl (minArea : ℚ) (cs : List Contour)
    (d : Bool) (k : List Contour) (t : ℚ) :
    cs.foldl (blobStep minArea) (d, k, t) =
      (d || cs.any (qualifies minArea),
       k ++ cs.filter (qualifies minArea),
       t + ((cs.filter (qualifies minArea)).map Contour.area).sum) := by
  induction cs generalizing d k t with
  | nil => simp
  | cons c cs ih =>
    by_cases h : minArea < c.area
    · simp [List.foldl_cons, blobStep, h, ih, qualifies, List.filter_cons]
      ring
    · simp [List.foldl_cons, blobStep, h, ih, qualifies, List.filter_cons]

/-- Closed form of the filtering loop: motion_detected is List.any of the
strict-area test, the kept contours are List.filter of it in input order,
and the total is the sum of the kept areas. -/
lemma filterContours_eq (minArea : ℚ) (cs : List Contour) :
    filterContours minArea cs =
      (cs.any (qualifies minArea),
       cs.filter (qualifies minArea),
       ((cs.filter (qualifies minArea)).map Contour.area).sum) := by
  simpa using blobStep_foldl minArea cs false [] 0

/-- detect_motion (source lines 111-141).  The background subtractor is
either absent (self.bg_subtractor is None) or a function from the frame
to the mask and the external contours that the cv2 chain
(apply / threshold / morphologyEx / findContours) produces for it; that
chain is external library code.  When the subtractor is absent the
function short-circuits to (False, None, [], 0). -/
def detect_motion (bg : Option (Frame → Mask × List Contour))
    (min_motion_area : ℚ) (frame : Frame) :
    Bool × Option Mask × List Contour × ℚ :=
  match bg with
  | none => (false, none, [], 0)
  | some extract =>
    let mc := extract frame
    let r := filterContours min_motion_area mc.2
    (r.1, some mc.1, r.2.1, r.2.2)

/-- Parameters of the synthesized fallback cue built by
create_default_sound (source lines 84-97): a one second tone at 200 Hz,
amplitude-modulated by a 6 Hz tremolo oscillation, rendered at a 22050 Hz
sample rate. -/
structure SynthCue where
  sample_rate : ℕ
  duration : ℚ
  frequency : ℚ
  tremolo_frequency : ℚ
deriving DecidableEq

/-- A playable sound held in self.audio_files: either a clip loaded from
the scary_sounds folder or the synthesized default cue. -/
inductive Sound where
  | clip (name : String)
  | synth (cue : SynthCue)
deriving DecidableEq

/-- create_default_sound (source lines 84-97): builds the fallback cue
with sample_rate 22050, duration 1.0, base frequency 200 and a tremolo
factor sin(2 pi 6 t), and makes it the single entry of audio_files. -/
def create_default_sound : Sound :=
  Sound.synth { sample_rate := 22050, duration := 1,
                frequency := 200, tremolo_frequency := 6 }

/-- load_scary_sounds (source lines 54-82).  dirExists tells whether the
scary_sounds folder exists; loaded is the list of clips pygame managed to
load from it.  When the folder does not exist the function creates it,
prints a warning and returns early with an empty audio list; when it
exists but yields no clips, the synthesized default becomes the only
entry; otherwise the loaded clips are kept. -/
def load_scary_sounds (dirExists : Bool) (loaded : List Sound) : List Sound :=
  if !dirExists then []
  else if loaded.isEmpty then [create_default_sound]
  else loaded

/-- Result of play_scare_sound: which sound was handed to pygame (if any)
and the Python return value, where some true mirrors return True,
some false mirrors the except branch returning False, and none mirrors
falling off the end of the function (Python returns None when
audio_files is empty). -/
structure PlayResult where
  played : Option Sound
  ret : Option Bool
deriving DecidableEq

/-- play_scare_sound (source lines 99-109): when audio_files is nonempty,
random.choice picks one entry (embedded as indexing by choice modulo the
length), plays it at full volume and returns True; when audio_files is
empty the if-body is skipped and the function returns None.  The except
branch only fires on external pygame errors, which the embedding leaves
out. -/
def play_scare_sound (choice : ℕ) (files : List Sound) : PlayResult :=
  match files with
  | [] => { played := none, ret := none }
  | f :: fs =>
    { played := some ((f :: fs).getD (choice % (fs.length + 1)) f),
      ret := some true }

/-- The annotated display frame produced by draw_overlay: the copied base
frame, the translucent blue mask layer (when a mask exists), one red
bounding rectangle per kept contour, the status line, the detection
counter line, the last-detection line (when set) and the remaining
cooldown line (only while inside the cooldown window). -/
structure Overlay where
  base : Frame
  mask_layer : Option Mask
  boxes : List (ℤ × ℤ × ℤ × ℤ)
  motion_status : Bool
  detections_text : ℕ
  last_text : Option Time
  cooldown_text : Option ℚ
deriving DecidableEq

/-- The mutable state of a HalloweenScareSystem instance (source lines
22-52), plus the audio_files list.  The background subtractor is opaque:
when present it maps a frame to the mask and contours the external cv2
chain produces. -/
structure ScareState where
  running : Bool
  paused : Bool
  sensitivity : ℚ
  min_motion_area : ℚ
  cooldown_seconds : ℚ
  last_scare_time : Time
  detection_count : ℕ
  last_detection_time : Option Time
  cap : Bool
  bg : Option (Frame → Mask × List Contour)
  current_frame : Option Frame
  display_frame : Option Overlay
  motion_mask : Option Mask
  audio_files : List Sound

/-- The fresh state built by the constructor (source lines 22-52):
monitoring not yet running, not paused, sensitivity 25, min area 500,
cooldown 5 seconds, last_scare_time 0, zero detections, no capture, no
background subtractor, and audio_files as loaded at startup. -/
def initState (dirExists : Bool) (loaded : List Sound) : ScareState :=
  { running := false, paused := false, sensitivity := 25,
    min_motion_area := 500, cooldown_seconds := 5, last_scare_time := 0,
    detection_count := 0, last_detection_time := none, cap := false,
    bg := none, current_frame := none, display_frame := none,
    motion_mask := none,
    audio_files := load_scary_sounds dirExists loaded }

/-- draw_overlay (source lines 143-177).  It copies the frame, blends the
mask layer when a mask exists, draws one bounding rectangle per contour,
and writes the status texts from the instance state; the remaining
cooldown line reads the wall clock (time.time()), embedded as the
explicit now argument, and appears exactly while now - last_scare_time is
below cooldown_seconds.  The returned state is the instance state after
the call; the method writes no instance field. -/
def draw_overlay (frame : Frame) (mask : Option Mask)
    (contours : List Contour) (motion : Bool) (s : ScareState)
    (now : Time) : Overlay × ScareState :=
  ({ base := frame,
     mask_layer := mask,
     boxes := contours.map (fun c => (c.x, c.y, c.w, c.h)),
     motion_status := motion,
     detections_text := s.detection_count,
     last_text := s.last_detection_time,
     cooldown_text :=
       if now - s.last_scare_time < s.cooldown_seconds
       then some (s.cooldown_seconds - (now - s.last_scare_time))
       else none }, s)

/-- Result of one process_frame call: the new instance state, whether a
scare thread was spawned this frame, and the returned pair, where the
paused branch returns the raw frame and the monitoring branch returns the
annotated display frame together with the mask. -/
structure ProcResult where
  state : ScareState
  fired : Bool
  ret_frame : Option (Frame ⊕ Overlay)
  ret_mask : Option Mask

/-- process_frame (source lines 210-240).  The read argument is the
outcome of self.cap.read(); now is the wall clock.  Early return when the
capture is absent or the system is not running, or when the read fails.
Otherwise the frame is stored; when paused the raw frame is returned with
no detection; when monitoring, detect_motion runs, the scare fires
exactly when motion is detected and now - last_scare_time has reached
cooldown_seconds, and on fire the sound thread is spawned,
last_scare_time becomes now, detection_count is incremented and
last_detection_time becomes now; finally the overlay is drawn from the
updated state and stored. -/
def process_frame (read : Option Frame) (now : Time) (s : ScareState) :
    ProcResult :=
  if s.cap = false ∨ s.running = false then
    { state := s, fired := false, ret_frame := none, ret_mask := none }
  else
    match read with
    | none => { state := s, fired := false, ret_frame := none, ret_mask := none }
    | some frame =>
      let s1 : ScareState := { s with current_frame := some frame }
      if s1.paused then
        { state := s1, fired := false, ret_frame := some (Sum.inl frame),
          ret_mask := none }
      else
        let det := detect_motion s1.bg s1.min_motion_area frame
        let fire : Bool :=
          det.1 && decide (s1.cooldown_seconds ≤ now - s1.last_scare_time)
        let s2 : ScareState :=
          if fire then
            { s1 with last_scare_time := now,
                      detection_count := s1.detection_count + 1,
                      last_detection_time := some now }
          else s1
        let ov := (draw_overlay frame det.2.1 det.2.2.1 det.1 s2 now).1
        let s3 : ScareState :=
          { s2 with display_frame := some ov, motion_mask := det.2.1 }
        { state := s3, fired := fire, ret_frame := some (Sum.inr ov),
          ret_mask := det.2.1 }

/-- stop (source lines 242-248): clears running, releases and drops the
capture and the background subtractor. -/
def stop (s : ScareState) : ScareState :=
  { s with running := false, cap := false, bg := none }

/-- connect_stream (source lines 179-208).  opened is the outcome of
cap.isOpened(); on success the background subtractor is created and
warmed up on ten frames before the function returns, so bg is populated
only after warm-up; on failure the function returns False with no
subtractor.  In both cases self.cap has been assigned. -/
def connect_stream (opened : Bool) (model : Frame → Mask × List Contour)
    (s : ScareState) : ScareState × Bool :=
  if opened then ({ s with cap := true, bg := some model }, true)
  else ({ s with cap := true }, false)

/-- HalloweenGUI.toggle_pause (source lines 527-535): flips paused. -/
def toggle_pause (s : ScareState) : ScareState :=
  { s with paused := !s.paused }

/-- HalloweenGUI.update_sensitivity (source line 462). -/
def update_sensitivity (v : ℚ) (s : ScareState) : ScareState :=
  { s with sensitivity := v }

/-- HalloweenGUI.update_cooldown (source line 465). -/
def update_cooldown (v : ℚ) (s : ScareState) : ScareState :=
  { s with cooldown_seconds := v }

/-- HalloweenGUI.update_area (source line 468). -/
def update_area (v : ℚ) (s : ScareState) : ScareState :=
  { s with min_motion_area := v }

/-- HalloweenGUI.reload_sounds (source lines 479-484): reruns
load_scary_sounds. -/
def reload_sounds (dirExists : Bool) (loaded : List Sound)
    (s : ScareState) : ScareState :=
  { s with audio_files := load_scary_sounds dirExists loaded }

/-- Result of the HalloweenGUI.test_sound handler: the instance state
after the call, how many times the handler invoked the audio dispatcher
(play_scare_sound), and what that call produced. -/
structure TestSoundResult where
  state : ScareState
  dispatcher_calls : ℕ
  play : PlayResult

/-- HalloweenGUI.test_sound (source lines 471-477): calls
play_scare_sound once, unconditionally, and only updates GUI labels with
the outcome; no scare-system field is written. -/
def test_sound (choice : ℕ) (s : ScareState) : TestSoundResult :=
  { state := s, dispatcher_calls := 1,
    play := play_scare_sound choice s.audio_files }

/-- HalloweenGUI.start_monitoring (source lines 486-512): connects the
stream and, on success, sets running. -/
def start_monitoring (opened : Bool) (model : Frame → Mask × List Contour)
    (s : ScareState) : ScareState :=
  let cs := connect_stream opened model s
  if cs.2 then { cs.1 with running := true } else cs.1

/-- One operation an external actor can perform on the running system:
a processing-loop iteration, the GUI toggles and sliders, the manual
sound test, a sound reload, starting, and stopping. -/
inductive Op where
  | frame (read : Option Frame)
  | pauseToggle
  | setSensitivity (v : ℚ)
  | setCooldown (v : ℚ)
  | setArea (v : ℚ)
  | soundTest (choice : ℕ)
  | soundsReload (dirExists : Bool) (loaded : List Sound)
  | start (opened : Bool) (model : Frame → Mask × List Contour)
  | halt

/-- Effect of one operation on the scare-system state; now is the wall
clock at the moment the operation runs. -/
def apply_op (op : Op) (now : Time) (s : ScareState) : ScareState :=
  match op with
  | Op.frame read => (process_frame read now s).state
  | Op.pauseToggle => toggle_pause s
  | Op.setSensitivity v => update_sensitivity v s
  | Op.setCooldown v => update_cooldown v s
  | Op.setArea v => update_area v s
  | Op.soundTest choice => (test_sound choice s).state
  | Op.soundsReload d l => reload_sounds d l s
  | Op.start o m => start_monitoring o m s
  | Op.halt => stop s

/-- Run a timestamped sequence of operations in order. -/
def run_ops : List (Op × Time) → ScareState → ScareState
  | [], s => s
  | p :: rest, s => run_ops rest (apply_op p.1 p.2 s)

/-- The fire condition of source line 230: motion detected and the time
since the last scare has reached the cooldown. -/
def fireCond (frame : Frame) (now : Time) (s : ScareState) : Bool :=
  (detect_motion s.bg s.min_motion_area frame).1 &&
    decide (s.cooldown_seconds ≤ now - s.last_scare_time)

lemma pf_fired (frame : Frame) (now : Time) (s : ScareState)
    (hc : s.cap = true) (hr : s.running = true) (hp : s.paused = false) :
    (process_frame (some frame) now s).fired = fireCond frame now s := by
  unfold process_frame fireCond
  simp [hc, hr, hp]

lemma pf_last (frame : Frame) (now : Time) (s : ScareState)
    (hc : s.cap = true) (hr : s.running = true) (hp : s.paused = false) :
    (process_frame (some frame) now s).state.last_scare_time =
      if fireCond frame now s then now else s.last_scare_time := by
  unfold process_frame fireCond
  simp [hc, hr, hp]
  split <;> simp

lemma pf_count (frame : Frame) (now : Time) (s : ScareState)
    (hc : s.cap = true) (hr : s.running = true) (hp : s.paused = false) :
    (process_frame (some frame) now s).state.detection_count =
      if fireCond frame now s then s.detection_count + 1
      else s.detection_count := by
  unfold process_frame fireCond
  simp [hc, hr, hp]
  split <;> simp

lemma pf_ldt (frame : Frame) (now : Time) (s : ScareState)
    (hc : s.cap = true) (hr : s.running = true) (hp : s.paused = false) :
    (process_frame (some frame) now s).state.last_detection_time =
      if fireCond frame now s then some now
      else s.last_detection_time := by
  unfold process_frame fireCond
  simp [hc, hr, hp]
  split <;> simp

lemma pf_preserved (frame : Frame) (now : Time) (s : ScareState)
    (hc : s.cap = true) (hr : s.running = true) (hp : s.paused = false) :
    (process_frame (some frame) now s).state.cap = s.cap ∧
    (process_frame (some frame) now s).state.running = s.running ∧
    (process_frame (some frame) now s).state.paused = s.paused ∧
    (process_frame (some frame) now s).state.bg = s.bg ∧
    (process_frame (some frame) now s).state.min_motion_area =
      s.min_motion_area ∧
    (process_frame (some frame) now s).state.cooldown_seconds =
      s.cooldown_seconds := by
  unfold process_frame
  simp [hc, hr, hp]
  split <;> simp [hc, hr, hp]

lemma pf_early (read : Option Frame) (now : Time) (s : ScareState)
    (h : s.cap = false ∨ s.running = false) :
    process_frame read now s =
      { state := s, fired := false, ret_frame := none, ret_mask := none } := by
  unfold process_frame
  simp [h]

lemma pf_read_failed (now : Time) (s : ScareState) :
    (process_frame none now s).fired = false ∧
    (process_frame none now s).state = s := by
  unfold process_frame
  by_cases h : s.cap = false ∨ s.running = false <;> simp [h]

/-- C2. For every frame processed while the system is paused, no trigger
fires and detection_count is unchanged, whatever the detection pipeline
would have produced for that frame; last_scare_time is untouched too. -/
theorem paused_frames_never_trigger (read : Option Frame) (now : Time)
    (s : ScareState) (hp : s.paused = true) :
    (process_frame read now s).fired = false ∧
    (process_frame read now s).state.detection_count = s.detection_count ∧
    (process_frame read now s).state.last_scare_time = s.last_scare_time := by
  unfold process_frame
  by_cases h1 : s.cap = false ∨ s.running = false
  · simp [h1]
  · simp [h1]
    cases read with
    | none => simp
    | some frame => simp [hp]

/-- Witness for C2: a freshly started, then paused, system processes a
frame at time 7 without firing and with the detection count unchanged. -/
theorem paused_frames_never_trigger_witness :
    (process_frame (some 0) 7 (toggle_pause (initState true []))).fired
        = false ∧
    (process_frame (some 0) 7
        (toggle_pause (initState true []))).state.detection_count =
      (toggle_pause (initState true [])).detection_count ∧
    (process_frame (some 0) 7
        (toggle_pause (initState true []))).state.last_scare_time =
      (toggle_pause (initState true [])).last_scare_time :=
  paused_frames_never_trigger (some 0) 7 (toggle_pause (initState true []))
    rfl

/-- C5. While the background subtractor is absent (not yet initialized:
it only exists after connect_stream has created and warmed it up),
detect_motion short-circuits to no motion, no mask, no contours and zero
area for every frame, and a processing step in that condition never fires
and leaves detection_count unchanged. -/
theorem warmup_detection_short_circuit :
    (∀ (minA : ℚ) (frame : Frame),
      detect_motion none minA frame = (false, none, [], 0)) ∧
    (∀ (read : Option Frame) (now : Time) (s : ScareState),
      s.bg = none →
      (process_frame read now s).fired = false ∧
      (process_frame read now s).state.detection_count =
        s.detection_count) := by
  constructor
  · intro minA frame
    rfl
  · intro read now s hbg
    unfold process_frame
    by_cases h1 : s.cap = false ∨ s.running = false
    · simp [h1]
    · simp [h1]
      cases read with
      | none => simp
      | some frame =>
        by_cases hp : s.paused = true
        · simp [hp]
        · simp [Bool.not_eq_true] at hp
          simp [hp, hbg, detect_motion]

/-- Witness for C5: before any connect_stream, the fresh state has no
subtractor; a frame full of motion-like content still yields no fire and
a zero count. -/
theorem warmup_detection_short_circuit_witness :
    (process_frame (some 42) 9 (initState true [])).fired = false ∧
    (process_frame (some 42) 9 (initState true [])).state.detection_count =
      (initState true []).detection_count :=
  warmup_detection_short_circuit.2 (some 42) 9 (initState true []) rfl

/-- C4. For every frame run through detection, motion_detected is true
exactly when at least one contour survives the area filter, and the
returned total area is the sum of the areas of exactly the surviving
contours. -/
theorem motion_flag_and_total_area
    (bg : Option (Frame → Mask × List Contour)) (minA : ℚ)
    (frame : Frame) :
    ((detect_motion bg minA frame).1 = true ↔
      (detect_motion bg minA frame).2.2.1 ≠ []) ∧
    (detect_motion bg minA frame).2.2.2 =
      (((detect_motion bg minA frame).2.2.1).map Contour.area).sum := by
  cases bg with
  | none => simp [detect_motion]
  | some extract =>
    simp only [detect_motion, filterContours_eq]
    constructor
    · rw [List.any_eq_true, Ne, List.filter_eq_nil_iff]
      push_neg
      simp
    · trivial

/-- C3 as stated is false: the filter does not keep every component whose
area is not below the threshold.  A component of area exactly
min_motion_area (500) is not below 500, yet the loop discards it. -/
theorem blob_filter_keeps_nonbelow_refuted :
    ¬ (∀ (minArea : ℚ) (cs : List Contour) (c : Contour),
        c ∈ cs → ¬(c.area < minArea) →
        c ∈ (filterContours minArea cs).2.1) := by
  intro h
  have hmem := h 500 [{ area := 500, x := 0, y := 0, w := 10, h := 50 }]
    { area := 500, x := 0, y := 0, w := 10, h := 50 }
    (List.mem_singleton.mpr rfl) (by norm_num)
  simp [filterContours, blobStep] at hmem

/-- C3 amended: the filter keeps exactly the components whose area is
strictly greater than min_motion_area (so it also discards area equal to
the threshold); in particular an area of min_motion_area - 1 is excluded
and an area of min_motion_area + 1 is included, whatever the rest of the
mask contains. -/
theorem blob_filter_strict_boundary (minArea : ℚ) (cs : List Contour) :
    (filterContours minArea cs).2.1 = cs.filter (qualifies minArea) ∧
    (∀ c ∈ cs, c.area = minArea - 1 →
      c ∉ (filterContours minArea cs).2.1) ∧
    (∀ c ∈ cs, c.area = minArea + 1 →
      c ∈ (filterContours minArea cs).2.1) := by
  refine ⟨(filterContours_eq minArea cs).symm ▸ rfl, ?_, ?_⟩
  · intro c _ harea
    rw [filterContours_eq]
    simp [List.mem_filter, qualifies, harea]
  · intro c hmem harea
    rw [filterContours_eq]
    simp [List.mem_filter, qualifies, harea, hmem]

/-- Witness for C3 amended: with the default threshold 500, a contour of
area 499 is excluded and a contour of area 501 is included. -/
theorem blob_filter_strict_boundary_witness :
    ({ area := 499, x := 0, y := 0, w := 10, h := 10 } : Contour) ∉
      (filterContours 500
        [{ area := 499, x := 0, y := 0, w := 10, h := 10 },
         { area := 501, x := 0, y := 0, w := 10, h := 10 }]).2.1 ∧
    ({ area := 501, x := 0, y := 0, w := 10, h := 10 } : Contour) ∈
      (filterContours 500
        [{ area := 499, x := 0, y := 0, w := 10, h := 10 },
         { area := 501, x := 0, y := 0, w := 10, h := 10 }]).2.1 := by
  constructor
  · exact (blob_filter_strict_boundary 500 _).2.1 _ (by simp) (by norm_num)
  · exact (blob_filter_strict_boundary 500 _).2.2 _ (by simp) (by norm_num)

/-- C10. A contour whose area exactly equals min_motion_area is
discarded: it never appears among the kept contours, prepending it to a
mask's contour list changes nothing in the filter result, and on its own
it yields no motion and zero total area. -/
theorem blob_filter_exact_threshold_discarded (minArea : ℚ) (c : Contour)
    (cs : List Contour) (h : c.area = minArea) :
    c ∉ (filterContours minArea cs).2.1 ∧
    filterContours minArea (c :: cs) = filterContours minArea cs ∧
    (filterContours minArea [c]).1 = false ∧
    (filterContours minArea [c]).2.2 = 0 := by
  refine ⟨?_, ?_, ?_, ?_⟩
  · rw [filterContours_eq]
    simp [List.mem_filter, qualifies, h]
  · unfold filterContours
    rw [List.foldl_cons]
    simp [blobStep, h]
  · simp [filterContours, blobStep, h]
  · simp [filterContours, blobStep, h]

/-- Witness for C10: with threshold 500, a contour of area exactly 500 is
dropped, leaves the result for the remaining contours untouched, and
alone produces no motion and zero area. -/
theorem blob_filter_exact_threshold_discarded_witness :
    ({ area := 500, x := 0, y := 0, w := 20, h := 25 } : Contour) ∉
      (filterContours 500
        [{ area := 600, x := 1, y := 1, w := 20, h := 30 }]).2.1 ∧
    filterContours 500
        [{ area := 500, x := 0, y := 0, w := 20, h := 25 },
         { area := 600, x := 1, y := 1, w := 20, h := 30 }] =
      filterContours 500 [{ area := 600, x := 1, y := 1, w := 20, h := 30 }] ∧
    (filterContours 500
        [{ area := 500, x := 0, y := 0, w := 20, h := 25 }]).1 = false ∧
    (filterContours 500
        [{ area := 500, x := 0, y := 0, w := 20, h := 25 }]).2.2 = 0 :=
  blob_filter_exact_threshold_discarded 500
    { area := 500, x := 0, y := 0, w := 20, h := 25 }
    [{ area := 600, x := 1, y := 1, w := 20, h := 30 }] rfl

/-- C6. The manual test-trigger handler invokes the audio dispatcher
(play_scare_sound) exactly once per invocation, in every mode and at
every elapsed cooldown, and leaves every scare-system field, in
particular detection_count, last_scare_time and last_detection_time,
unchanged. -/
theorem test_trigger_dispatch_once (choice : ℕ) (s : ScareState) :
    (test_sound choice s).dispatcher_calls = 1 ∧
    (test_sound choice s).state = s ∧
    (test_sound choice s).state.detection_count = s.detection_count ∧
    (test_sound choice s).state.last_scare_time = s.last_scare_time ∧
    (test_sound choice s).state.last_detection_time =
      s.last_detection_time :=
  ⟨rfl, rfl, rfl, rfl, rfl⟩

/-- C7 as stated is false: when the scary_sounds folder is missing,
load_scary_sounds returns early with zero clips and no synthesized
default, and play_scare_sound then skips its body and returns None
rather than success. -/
theorem play_no_folder_no_success :
    load_scary_sounds false [] = [] ∧
    play_scare_sound 0 (load_scary_sounds false []) =
      { played := none, ret := none } :=
  ⟨rfl, rfl⟩

/-- C7 amended: when the scary_sounds folder exists but yields zero
external clips, the loader installs the synthesized default cue as the
single audio entry, and every play returns True and plays that cue,
which has fixed duration 1 s, base frequency 200 Hz, a slower 6 Hz
tremolo modulation, and a 22050 Hz sample rate; when the folder is
missing, the loader returns early with no clips at all and play returns
None. -/
theorem default_cue_on_empty_folder (choice : ℕ) :
    load_scary_sounds true [] = [create_default_sound] ∧
    play_scare_sound choice (load_scary_sounds true []) =
      { played := some create_default_sound, ret := some true } ∧
    (∃ cue : SynthCue, create_default_sound = Sound.synth cue ∧
      cue.duration = 1 ∧ cue.frequency = 200 ∧
      cue.tremolo_frequency = 6 ∧ cue.tremolo_frequency < cue.frequency ∧
      cue.sample_rate = 22050) ∧
    play_scare_sound choice (load_scary_sounds false []) =
      { played := none, ret := none } := by
  refine ⟨rfl, ?_, ?_, rfl⟩
  · simp [load_scary_sounds, play_scare_sound, create_default_sound,
      Nat.mod_one]
  · exact ⟨_, rfl, rfl, rfl, rfl, by norm_num, rfl⟩

/-- C8 as stated is false: draw_overlay reads the wall clock for the
remaining-cooldown line, so two calls with identical frame, mask,
contours, motion flag, state and configuration, made at clock readings 1
and 2 inside the cooldown window of a fresh state, produce different
annotated frames. -/
theorem overlay_clock_sensitivity :
    (draw_overlay 0 none [] false (initState true []) 1).1 ≠
    (draw_overlay 0 none [] false (initState true []) 2).1 := by
  simp [draw_overlay, initState]

/-- C8 amended: the overlay renderer writes no scare-system field, and
its output is fully determined by the frame, mask, contours, motion
flag, the four state fields it reads (detection_count,
last_detection_time, last_scare_time, cooldown_seconds) and the clock
reading: two calls agreeing on all of those, including the clock,
produce the identical annotated frame even from otherwise different
states. -/
theorem overlay_pure_and_deterministic (frame : Frame)
    (mask : Option Mask) (contours : List Contour) (motion : Bool)
    (s s2 : ScareState) (now : Time)
    (h1 : s2.detection_count = s.detection_count)
    (h2 : s2.last_detection_time = s.last_detection_time)
    (h3 : s2.last_scare_time = s.last_scare_time)
    (h4 : s2.cooldown_seconds = s.cooldown_seconds) :
    (draw_overlay frame mask contours motion s now).2 = s ∧
    (draw_overlay frame mask contours motion s2 now).1 =
      (draw_overlay frame mask contours motion s now).1 := by
  constructor
  · rfl
  · simp [draw_overlay, h1, h2, h3, h4]

/-- Witness for C8 amended: two states differing in sensitivity but
agreeing on the four fields the renderer reads produce the same overlay
at the same clock reading, and the call returns the state unchanged. -/
theorem overlay_pure_and_deterministic_witness :
    (draw_overlay 0 none [] false (initState true []) 1).2 =
      initState true [] ∧
    (draw_overlay 0 none [] false
        (update_sensitivity 50 (initState true [])) 1).1 =
      (draw_overlay 0 none [] false (initState true []) 1).1 :=
  overlay_pure_and_deterministic 0 none [] false (initState true [])
    (update_sensitivity 50 (initState true [])) 1 rfl rfl rfl rfl

/-- C1. In monitoring mode (capture open, running, not paused), a
processed frame fires a scare exactly when motion is detected and the
time since the last scare has reached cooldown_seconds; on fire,
last_scare_time becomes now, detection_count is incremented by one and
last_detection_time becomes now.  In particular, with cooldown 5 and
motion on every frame, a first motion at a time t past the cooldown
fires, motion 3 seconds later does not, and motion 6 seconds after the
first fires again. -/
theorem monitoring_fire_iff_cooldown :
    (∀ (frame : Frame) (now : Time) (s : ScareState),
      s.cap = true → s.running = true → s.paused = false →
      ((process_frame (some frame) now s).fired = true ↔
        ((detect_motion s.bg s.min_motion_area frame).1 = true ∧
         s.cooldown_seconds ≤ now - s.last_scare_time)) ∧
      ((process_frame (some frame) now s).fired = true →
        (process_frame (some frame) now s).state.last_scare_time = now ∧
        (process_frame (some frame) now s).state.detection_count =
          s.detection_count + 1 ∧
        (process_frame (some frame) now s).state.last_detection_time =
          some now)) ∧
    (∀ (s : ScareState) (f1 f2 f3 : Frame) (t : Time),
      s.cap = true → s.running = true → s.paused = false →
      s.cooldown_seconds = 5 →
      (∀ fr : Frame, (detect_motion s.bg s.min_motion_area fr).1 = true) →
      s.cooldown_seconds ≤ t - s.last_scare_time →
      (process_frame (some f1) t s).fired = true ∧
      (process_frame (some f1) t s).state.detection_count =
        s.detection_count + 1 ∧
      (process_frame (some f2) (t + 3)
          (process_frame (some f1) t s).state).fired = false ∧
      (process_frame (some f2) (t + 3)
          (process_frame (some f1) t s).state).state.detection_count =
        s.detection_count + 1 ∧
      (process_frame (some f3) (t + 6)
          (process_frame (some f2) (t + 3)
            (process_frame (some f1) t s).state).state).fired = true ∧
      (process_frame (some f3) (t + 6)
          (process_frame (some f2) (t + 3)
            (process_frame (some f1) t s).state).state).state.detection_count =
        s.detection_count + 2) := by
  constructor
  · intro frame now s hc hr hp
    constructor
    · rw [pf_fired frame now s hc hr hp]
      unfold fireCond
      simp
    · intro hf
      rw [pf_fired frame now s hc hr hp] at hf
      rw [pf_last frame now s hc hr hp, pf_count frame now s hc hr hp,
        pf_ldt frame now s hc hr hp]
      simp [hf]
  · intro s f1 f2 f3 t hc hr hp hcd hmot helapsed
    have fc1 : fireCond f1 t s = true := by
      unfold fireCond
      simp [hmot f1, helapsed]
    have fired1 : (process_frame (some f1) t s).fired = true := by
      rw [pf_fired f1 t s hc hr hp, fc1]
    have hpres1 := pf_preserved f1 t s hc hr hp
    have hc1 : (process_frame (some f1) t s).state.cap = true :=
      hpres1.1.trans hc
    have hr1 : (process_frame (some f1) t s).state.running = true :=
      hpres1.2.1.trans hr
    have hp1 : (process_frame (some f1) t s).state.paused = false :=
      hpres1.2.2.1.trans hp
    have hbg1 : (process_frame (some f1) t s).state.bg = s.bg :=
      hpres1.2.2.2.1
    have hmin1 : (process_frame (some f1) t s).state.min_motion_area =
        s.min_motion_area := hpres1.2.2.2.2.1
    have hcool1 : (process_frame (some f1) t s).state.cooldown_seconds =
        s.cooldown_seconds := hpres1.2.2.2.2.2
    have hlast1 : (process_frame (some f1) t s).state.last_scare_time = t := by
      rw [pf_last f1 t s hc hr hp, fc1]
      simp
    have hcount1 : (process_frame (some f1) t s).state.detection_count =
        s.detection_count + 1 := by
      rw [pf_count f1 t s hc hr hp, fc1]
      simp
    have fc2 : fireCond f2 (t + 3) (process_frame (some f1) t s).state
        = false := by
      unfold fireCond
      rw [hbg1, hmin1, hcool1, hlast1, hcd, hmot f2]
      have h3 : t + 3 - t = (3 : ℚ) := by ring
      rw [h3]
      norm_num
    have fired2 : (process_frame (some f2) (t + 3)
        (process_frame (some f1) t s).state).fired = false := by
      rw [pf_fired f2 (t + 3) _ hc1 hr1 hp1, fc2]
    have hpres2 := pf_preserved f2 (t + 3) _ hc1 hr1 hp1
    have hc2 := hpres2.1.trans hc1
    have hr2 := hpres2.2.1.trans hr1
    have hp2 := hpres2.2.2.1.trans hp1
    have hbg2 := hpres2.2.2.2.1.trans hbg1
    have hmin2 := hpres2.2.2.2.2.1.trans hmin1
    have hcool2 := hpres2.2.2.2.2.2.trans hcool1
    have hlast2 : (process_frame (some f2) (t + 3)
        (process_frame (some f1) t s).state).state.last_scare_time = t := by
      rw [pf_last f2 (t + 3) _ hc1 hr1 hp1, fc2]
      simp [hlast1]
    have hcount2 : (process_frame (some f2) (t + 3)
        (process_frame (some f1) t s).state).state.detection_count =
        s.detection_count + 1 := by
      rw [pf_count f2 (t + 3) _ hc1 hr1 hp1, fc2]
      simp [hcount1]
    have fc3 : fireCond f3 (t + 6) (process_frame (some f2) (t + 3)
        (process_frame (some f1) t s).state).state = true := by
      unfold fireCond
      rw [hbg2, hmin2, hcool2, hlast2, hcd, hmot f3]
      have h6 : t + 6 - t = (6 : ℚ) := by ring
      rw [h6]
      norm_num
    have fired3 : (process_frame (some f3) (t + 6)
        (process_frame (some f2) (t + 3)
          (process_frame (some f1) t s).state).state).fired = true := by
      rw [pf_fired f3 (t + 6) _ hc2 hr2 hp2, fc3]
    have hcount3 : (process_frame (some f3) (t + 6)
        (process_frame (some f2) (t + 3)
          (process_frame (some f1) t s).state).state).state.detection_count =
        s.detection_count + 2 := by
      rw [pf_count f3 (t + 6) _ hc2 hr2 hp2, fc3]
      simp [hcount2]
    exact ⟨fired1, hcount1, fired2, hcount2, fired3, hcount3⟩

/-- Witness for C1: a started system whose subtractor always reports one
contour of area 600 (above the default threshold 500), with the default
cooldown 5 and last_scare_time 0: motion at time 10 fires (count 1),
motion at 10 + 3 does not (count stays 1), motion at 10 + 6 fires again
(count 2). -/
theorem monitoring_fire_iff_cooldown_witness :
    (process_frame (some 0) 10
      (start_monitoring true
        (fun _ => ((0 : Mask),
          [{ area := 600, x := 0, y := 0, w := 20, h := 30 }]))
        (initState true []))).fired = true ∧
    (process_frame (some 0) 10
      (start_monitoring true
        (fun _ => ((0 : Mask),
          [{ area := 600, x := 0, y := 0, w := 20, h := 30 }]))
        (initState true []))).state.detection_count =
      (start_monitoring true
        (fun _ => ((0 : Mask),
          [{ area := 600, x := 0, y := 0, w := 20, h := 30 }]))
        (initState true [])).detection_count + 1 ∧
    (process_frame (some 1) (10 + 3)
      (process_frame (some 0) 10
        (start_monitoring true
          (fun _ => ((0 : Mask),
            [{ area := 600, x := 0, y := 0, w := 20, h := 30 }]))
          (initState true []))).state).fired = false ∧
    (process_frame (some 1) (10 + 3)
      (process_frame (some 0) 10
        (start_monitoring true
          (fun _ => ((0 : Mask),
            [{ area := 600, x := 0, y := 0, w := 20, h := 30 }]))
          (initState true []))).state).state.detection_count =
      (start_monitoring true
        (fun _ => ((0 : Mask),
          [{ area := 600, x := 0, y := 0, w := 20, h := 30 }]))
        (initState true [])).detection_count + 1 ∧
    (process_frame (some 2) (10 + 6)
      (process_frame (some 1) (10 + 3)
        (process_frame (some 0) 10
          (start_monitoring true
            (fun _ => ((0 : Mask),
              [{ area := 600, x := 0, y := 0, w := 20, h := 30 }]))
            (initState true []))).state).state).fired = true ∧
    (process_frame (some 2) (10 + 6)
      (process_frame (some 1) (10 + 3)
        (process_frame (some 0) 10
          (start_monitoring true
            (fun _ => ((0 : Mask),
              [{ area := 600, x := 0, y := 0, w := 20, h := 30 }]))
            (initState true []))).state).state).state.detection_count =
      (start_monitoring true
        (fun _ => ((0 : Mask),
          [{ area := 600, x := 0, y := 0, w := 20, h := 30 }]))
        (initState true [])).detection_count + 2 :=
  monitoring_fire_iff_cooldown.2
    (start_monitoring true
      (fun _ => ((0 : Mask),
        [{ area := 600, x := 0, y := 0, w := 20, h := 30 }]))
      (initState true []))
    0 1 2 10 rfl rfl rfl rfl (fun _ => rfl)
    (by norm_num [start_monitoring, connect_stream, initState])

lemma pf_step_mono (read : Option Frame) (now : Time) (s : ScareState)
    (h : s.last_scare_time ≤ now) :
    s.detection_count ≤ (process_frame read now s).state.detection_count ∧
    s.last_scare_time ≤ (process_frame read now s).state.last_scare_time ∧
    (process_frame read now s).state.last_scare_time ≤ now := by
  by_cases h1 : s.cap = false ∨ s.running = false
  · rw [pf_early read now s h1]
    exact ⟨le_refl _, le_refl _, h⟩
  · cases read with
    | none =>
      rw [(pf_read_failed now s).2]
      exact ⟨le_refl _, le_refl _, h⟩
    | some frame =>
      by_cases hp : s.paused = true
      · have hpd : (process_frame (some frame) now s).state.detection_count
              = s.detection_count ∧
            (process_frame (some frame) now s).state.last_scare_time
              = s.last_scare_time := by
          unfold process_frame
          simp [h1, hp]
        rw [hpd.1, hpd.2]
        exact ⟨le_refl _, le_refl _, h⟩
      · push_neg at h1
        obtain ⟨hcap, hrun⟩ := h1
        simp only [Bool.not_eq_false] at hcap hrun
        simp only [Bool.not_eq_true] at hp
        rw [pf_count frame now s hcap hrun hp,
          pf_last frame now s hcap hrun hp]
        by_cases hf : fireCond frame now s = true
        · simp [hf]
          exact h
        · simp only [Bool.not_eq_true] at hf
          simp [hf]
          exact h

lemma apply_op_mono (op : Op) (t : Time) (s : ScareState)
    (h : s.last_scare_time ≤ t) :
    s.detection_count ≤ (apply_op op t s).detection_count ∧
    s.last_scare_time ≤ (apply_op op t s).last_scare_time ∧
    (apply_op op t s).last_scare_time ≤ t := by
  cases op with
  | frame read => exact pf_step_mono read t s h
  | pauseToggle => exact ⟨le_refl _, le_refl _, h⟩
  | setSensitivity v => exact ⟨le_refl _, le_refl _, h⟩
  | setCooldown v => exact ⟨le_refl _, le_refl _, h⟩
  | setArea v => exact ⟨le_refl _, le_refl _, h⟩
  | soundTest choice => exact ⟨le_refl _, le_refl _, h⟩
  | soundsReload d l => exact ⟨le_refl _, le_refl _, h⟩
  | start o m =>
    cases o with
    | true => exact ⟨le_refl _, le_refl _, h⟩
    | false => exact ⟨le_refl _, le_refl _, h⟩
  | halt => exact ⟨le_refl _, le_refl _, h⟩

/-- C9. Across every operation the external actors can perform
(processing-loop iterations, pause toggles, slider updates, sound tests,
sound reloads, start and stop), detection_count never decreases and
last_scare_time only moves forward, provided the clock readings supplied
to the successive operations are non-decreasing and start no earlier
than the initial last_scare_time. -/
theorem stats_monotone_over_ops (ops : List (Op × Time)) (t0 : Time)
    (s : ScareState) (h0 : s.last_scare_time ≤ t0)
    (hc : List.Chain (fun a b : Time => a ≤ b) t0 (ops.map Prod.snd)) :
    s.detection_count ≤ (run_ops ops s).detection_count ∧
    s.last_scare_time ≤ (run_ops ops s).last_scare_time := by
  induction ops generalizing t0 s with
  | nil => exact ⟨le_refl _, le_refl _⟩
  | cons p rest ih =>
    rw [List.map_cons] at hc
    cases hc with
    | cons hle hchain =>
      have hstep := apply_op_mono p.1 p.2 s (le_trans h0 hle)
      have hrest := ih p.2 (apply_op p.1 p.2 s) hstep.2.2 hchain
      unfold run_ops
      exact ⟨le_trans hstep.1 hrest.1, le_trans hstep.2.1 hrest.2⟩

/-- Witness for C9: starting from a fresh state, a pause toggle at time
1 followed by a processed frame at time 2 leaves the detection count and
the last trigger time non-decreasing. -/
theorem stats_monotone_over_ops_witness :
    (initState true []).detection_count ≤
      (run_ops [(Op.pauseToggle, 1), (Op.frame (some 5), 2)]
        (initState true [])).detection_count ∧
    (initState true []).last_scare_time ≤
      (run_ops [(Op.pauseToggle, 1), (Op.frame (some 5), 2)]
        (initState true [])).last_scare_time :=
  stats_monotone_over_ops [(Op.pauseToggle, 1), (Op.frame (some 5), 2)] 0
    (initState true []) (by norm_num [initState])
    (by simp [List.chain_cons])

end Halloween
